import Mathlib

/-!
# Verification of the async-operations module

Shallow embedding of `src/examples/03-async-testing/asyncOperations.ts`.

Modelling conventions:
* A settled asynchronous outcome is `Except String α`: `Except.ok` for a
  resolution, `Except.error m` for a rejection with an `Error` whose
  `message` is `m`.
* Where a JavaScript value other than an `Error` object can be thrown
  (the `throw lastError!` on the last line of `fetchWithRetry`, which
  throws `undefined` when `lastError` was never assigned), the thrown
  value is `JsError`: `JsError.err m` for `new Error(m)`, `JsError.undef`
  for `undefined`.
* For the timing-sensitive wrappers (`fetchWithTimeout`,
  `raceConditionTest`) an operation is an `AsyncOp`: the virtual-clock
  instant at which its promise settles together with its settlement.
  The event loop runs timer callbacks in firing-time order, ties broken
  by registration order; in both wrappers the wrapper's own timer (or
  `operation1`) is registered before the competing settlement source, so
  a tie goes to the earlier-registered side.
* A retried operation is a mock `op : Nat → Except String α` giving the
  settlement of its k-th invocation (1-based), so invocation counts are
  observable; `fetchWithRetry` returns the pair (outcome, number of
  invocations of `op`).
* `console.log` / `console.error` side effects are returned alongside
  the settlement as an ordered list of emitted lines.
-/

namespace AsyncOperations

/-- The record resolved by `fetchUserData`: `{ id, name, email }`. -/
structure UserRecord where
  id : Int
  name : String
  email : String
deriving Repr, DecidableEq

/-- `fetchUserData` (source lines 7–21): after a fixed 100 ms latency,
resolves id 1 and id 2 to fixed records and rejects every other id with
`Error("User not found")`.  The latency does not affect the settlement,
so only the settlement is modelled. -/
def fetchUserData (userId : Int) : Except String UserRecord :=
  if userId = 1 then
    Except.ok { id := 1, name := "John Doe", email := "john@example.com" }
  else if userId = 2 then
    Except.ok { id := 2, name := "Jane Smith", email := "jane@example.com" }
  else
    Except.error "User not found"

/-- `processUserData` (lines 24–31): awaits the lookup, formats a success,
and rewraps a failure's message. -/
def processUserData (userId : Int) : Except String String :=
  match fetchUserData userId with
  | Except.ok user =>
    Except.ok ("처리된 사용자: " ++ user.name ++ " (" ++ user.email ++ ")")
  | Except.error e =>
    Except.error ("사용자 데이터 처리 실패: " ++ e)

/-- The per-item try/catch body shared textually by both aggregators:
a failure of `processUserData` is captured as the string
`Error: <message>` at that position. -/
def aggregateItem (userId : Int) : String :=
  match processUserData userId with
  | Except.ok s => s
  | Except.error e => "Error: " ++ e

/-- The `for`-loop of `processMultipleUsers`, carrying the `results`
accumulator that the loop pushes onto. -/
def processMultipleUsersGo : List Int → List String → List String
  | [], results => results
  | userId :: rest, results =>
    processMultipleUsersGo rest (results ++ [aggregateItem userId])

/-- `processMultipleUsers` (lines 34–49): sequential aggregator; one
lookup at a time, each failure captured in place, no short-circuit. -/
def processMultipleUsers (userIds : List Int) : List String :=
  processMultipleUsersGo userIds []

/-- `processUsersParallel` (lines 52–64): maps every id to a promise and
`Promise.all`s them; `Promise.all` returns results in input order, which
is `List.map` on settlements. -/
def processUsersParallel (userIds : List Int) : List String :=
  userIds.map (fun userId =>
    match processUserData userId with
    | Except.ok s => s
    | Except.error e => "Error: " ++ e)

/-- A timed asynchronous operation: the virtual-clock time of its
settlement and the settlement itself. -/
structure AsyncOp (α : Type) where
  settleTime : Nat
  result : Except String α
deriving Repr

/-- `fetchWithTimeout` (lines 67–86): registers a deadline timer for
`timeout` ms, then starts `operation()`.  If the operation settles
strictly first, its settlement is forwarded and `clearTimeout` runs, so
the timer callback never fires (second component `false`); otherwise the
timer callback fires first (registration order breaks the tie) and
rejects with `Error("Operation timed out")`; the operation's later
settlement hits an already-settled promise and is discarded. -/
def fetchWithTimeout {α : Type} (op : AsyncOp α) (timeout : Nat) :
    AsyncOp α × Bool :=
  if op.settleTime < timeout then
    ({ settleTime := op.settleTime, result := op.result }, false)
  else
    ({ settleTime := timeout, result := Except.error "Operation timed out" },
     true)

/-- A thrown JavaScript value: either an `Error` object with a message,
or `undefined` (thrown by `lastError!` when `lastError` was never
assigned). -/
inductive JsError where
  | err (msg : String)
  | undef
deriving Repr, DecidableEq

/-- The `for (let attempt = 1; attempt <= maxRetries; attempt++)` loop of
`fetchWithRetry` (lines 95–112) together with the trailing
`throw lastError!` (line 114).  `attempt` is the 1-based loop counter,
`remaining` the number of loop iterations still permitted
(`maxRetries - attempt + 1` clipped at 0), `lastError` the mutable
variable of line 93.  Returns the outcome and the number of times the
operation was invoked.  The backoff delay before a retry (line 108–110)
does not affect the settlement and is not modelled. -/
def retryGo {α : Type} (op : Nat → Except String α) (maxRetries : Int) :
    Nat → Nat → Option String → Except JsError α × Nat
  | _attempt, 0, lastError =>
    (Except.error (match lastError with
      | some m => JsError.err m
      | none => JsError.undef), 0)
  | attempt, remaining + 1, _lastError =>
    match op attempt with
    | Except.ok v => (Except.ok v, 1)
    | Except.error m =>
      if (attempt : Int) = maxRetries then
        (Except.error (JsError.err
          ("최대 재시도 횟수 초과 (" ++ toString maxRetries ++ "회): " ++ m)),
         1)
      else
        let r := retryGo op maxRetries (attempt + 1) remaining (some m)
        (r.1, r.2 + 1)

/-- `fetchWithRetry` (lines 89–115): run the loop from `attempt = 1` with
`lastError` uninitialized.  The loop body executes at most
`max maxRetries 0` times (`Int.toNat`), matching
`attempt <= maxRetries` for an integer bound. -/
def fetchWithRetry {α : Type} (op : Nat → Except String α)
    (maxRetries : Int) : Except JsError α × Nat :=
  retryGo op maxRetries 1 maxRetries.toNat none

/-- `fetchUserCallback` (lines 118–134): after 50 ms invokes the
continuation with `(null, record)` for ids 1 and 2 and with
`(Error("User not found"))` — second argument absent — otherwise.
Modelled as the argument pair the continuation receives. -/
def fetchUserCallback (userId : Int) : Option String × Option UserRecord :=
  if userId = 1 then
    (none, some { id := 1, name := "John Doe", email := "john@example.com" })
  else if userId = 2 then
    (none, some { id := 2, name := "Jane Smith", email := "jane@example.com" })
  else
    (some "User not found", none)

/-- `promisifyCallback` (lines 137–149): rejects with exactly the error
the callback supplied, otherwise resolves with `user!`.  The non-null
assertion `user!` is modelled by a default record in the branch the
callback never produces (error `null` and user absent together). -/
def promisifyCallback (userId : Int) : Except String UserRecord :=
  match fetchUserCallback userId with
  | (some e, _) => Except.error e
  | (none, some user) => Except.ok user
  | (none, none) => Except.ok { id := 0, name := "", email := "" }

/-- `generateUserStream` (lines 152–164): for each id attempt the lookup;
a success is yielded as the next element, a failure is logged via
`console.error("Failed to fetch user <id>:", error)` and skipped.
Returns (yielded records in order, diagnostics in order), each
diagnostic being the pair of the two `console.error` arguments. -/
def generateUserStream : List Int → List UserRecord × List (String × String)
  | [] => ([], [])
  | userId :: rest =>
    match fetchUserData userId with
    | Except.ok user =>
      let s := generateUserStream rest
      (user :: s.1, s.2)
    | Except.error e =>
      let s := generateUserStream rest
      (s.1, ("Failed to fetch user " ++ toString userId ++ ":", e) :: s.2)

/-- `raceConditionTest` (lines 167–172): `Promise.race` of the two
operations.  `operation1()` is invoked (and its settlement source
registered) first, so a tie goes to `operation1`. -/
def raceConditionTest (op1 op2 : AsyncOp String) : AsyncOp String :=
  if op2.settleTime < op1.settleTime then op2 else op1

/-- `complexAsyncOperation` (lines 175–207): acquires the resource
`"allocated resource"` (always succeeds, 50 ms), runs the main step —
`throw Error("작업 실패")` when `shouldFail`, otherwise a 100 ms wait and
`return "작업 완료: <resource>"` — and in the `finally` block, since the
resource is non-null, logs `리소스 정리: <resource>` (25 ms) before the
call settles with the main step's outcome.  Returns (settlement,
`console.log` lines emitted before settling). -/
def complexAsyncOperation (shouldFail : Bool) :
    Except String String × List String :=
  let resource : String := "allocated resource"
  let body : Except String String :=
    if shouldFail then Except.error "작업 실패"
    else Except.ok ("작업 완료: " ++ resource)
  (body, ["리소스 정리: " ++ resource])

end AsyncOperations

namespace AsyncOperations

/-- Any id other than 1 and 2 takes the `reject` branch of the lookup. -/
lemma fetchUserData_invalid (userId : Int) (h1 : userId ≠ 1)
    (h2 : userId ≠ 2) :
    fetchUserData userId = Except.error "User not found" := by
  simp [fetchUserData, h1, h2]

/-- For an invalid id the shared per-item body yields the doubly-wrapped
error string. -/
lemma aggregateItem_invalid (userId : Int) (h1 : userId ≠ 1)
    (h2 : userId ≠ 2) :
    aggregateItem userId = "Error: 사용자 데이터 처리 실패: User not found" := by
  rw [aggregateItem, processUserData, fetchUserData_invalid userId h1 h2]
  rfl

/-- The sequential loop appends one item per id onto its accumulator. -/
lemma processMultipleUsersGo_append (ids : List Int) (acc : List String) :
    processMultipleUsersGo ids acc = acc ++ ids.map aggregateItem := by
  induction ids generalizing acc with
  | nil => simp [processMultipleUsersGo]
  | cons x xs ih => simp [processMultipleUsersGo, ih]

/-- C4: ids 1 and 2 resolve to the two fixed records; every other id
rejects with `User not found`. -/
theorem fetchUserData_spec :
    fetchUserData 1 =
      Except.ok { id := 1, name := "John Doe", email := "john@example.com" } ∧
    fetchUserData 2 =
      Except.ok { id := 2, name := "Jane Smith", email := "jane@example.com" } ∧
    ∀ userId : Int, userId ≠ 1 → userId ≠ 2 →
      fetchUserData userId = Except.error "User not found" := by
  refine ⟨rfl, rfl, ?_⟩
  intro userId h1 h2
  simp [fetchUserData, h1, h2]

/-- Witness for C4 at the concrete invalid id 999. -/
theorem fetchUserData_spec_witness :
    (999 : Int) ≠ 1 ∧ (999 : Int) ≠ 2 ∧
      fetchUserData 999 = Except.error "User not found" :=
  ⟨by decide, by decide,
   fetchUserData_spec.2.2 999 (by decide) (by decide)⟩

/-- C6: over `[1, 999, 2]` the stream yields exactly the records for
ids 1 and 2, in that order, and emits exactly one diagnostic, for
id 999; the failure neither reaches the consumer nor ends the stream. -/
theorem generateUserStream_on_1_999_2 :
    generateUserStream [1, 999, 2] =
      ([{ id := 1, name := "John Doe", email := "john@example.com" },
        { id := 2, name := "Jane Smith", email := "jane@example.com" }],
       [("Failed to fetch user 999:", "User not found")]) := by
  rfl

/-- C5: for both values of the failure flag the cleanup log line appears
exactly once, and when the main step fails the caller observes the
original `작업 실패` error (the success branch's settlement is also
pinned down). -/
theorem complexAsyncOperation_spec :
    (∀ shouldFail : Bool,
      (complexAsyncOperation shouldFail).2 = ["리소스 정리: allocated resource"]) ∧
    (complexAsyncOperation true).1 = Except.error "작업 실패" ∧
    (complexAsyncOperation false).1 = Except.ok "작업 완료: allocated resource" := by
  refine ⟨?_, rfl, rfl⟩
  intro shouldFail
  cases shouldFail <;> rfl

/-- C3: on every input sequence the sequential and the parallel
aggregator return the same list (hence the same value at every
position), and the output length equals the input length; positions
follow input order in both. -/
theorem aggregators_agree (userIds : List Int) :
    processMultipleUsers userIds = processUsersParallel userIds ∧
    (processMultipleUsers userIds).length = userIds.length := by
  have h : processMultipleUsers userIds = userIds.map aggregateItem := by
    rw [processMultipleUsers, processMultipleUsersGo_append]
    rfl
  constructor
  · rw [h]; rfl
  · rw [h]; simp

/-- C10: on a valid id `processUserData` formats the record as
`처리된 사용자: <name> (<email>)`; on an invalid id it fails with the
wrapped message `사용자 데이터 처리 실패: User not found`; and every
position of either aggregator's output holding an invalid id carries the
doubly-wrapped string `Error: 사용자 데이터 처리 실패: User not found`. -/
theorem processUserData_format (userId : Int) :
    (∀ u, fetchUserData userId = Except.ok u →
      processUserData userId =
        Except.ok ("처리된 사용자: " ++ u.name ++ " (" ++ u.email ++ ")")) ∧
    (userId ≠ 1 → userId ≠ 2 →
      processUserData userId =
        Except.error "사용자 데이터 처리 실패: User not found") ∧
    (∀ (ids : List Int) (i : Nat), ids[i]? = some userId →
      userId ≠ 1 → userId ≠ 2 →
      (processUsersParallel ids)[i]? =
        some "Error: 사용자 데이터 처리 실패: User not found" ∧
      (processMultipleUsers ids)[i]? =
        some "Error: 사용자 데이터 처리 실패: User not found") := by
  refine ⟨?_, ?_, ?_⟩
  · intro u hu
    rw [processUserData, hu]
  · intro h1 h2
    rw [processUserData, fetchUserData_invalid userId h1 h2]
    rfl
  · intro ids i hi h1 h2
    have hpar : processUsersParallel ids = ids.map aggregateItem := rfl
    have hmap : (ids.map aggregateItem)[i]? =
        some "Error: 사용자 데이터 처리 실패: User not found" := by
      rw [List.getElem?_map, hi]
      simp [aggregateItem_invalid userId h1 h2]
    refine ⟨by rw [hpar]; exact hmap, ?_⟩
    rw [processMultipleUsers, processMultipleUsersGo_append]
    simpa using hmap

/-- Witness for C10 at the invalid id 999 and the list `[1, 999]`. -/
theorem processUserData_format_witness :
    processUserData 999 =
      Except.error "사용자 데이터 처리 실패: User not found" ∧
    (processUsersParallel [1, 999])[1]? =
      some "Error: 사용자 데이터 처리 실패: User not found" :=
  ⟨(processUserData_format 999).2.1 (by decide) (by decide),
   ((processUserData_format 999).2.2 [1, 999] 1 rfl (by decide)
     (by decide)).1⟩

/-- C2: when the operation settles strictly before the deadline, its
settlement (success or failure alike) is forwarded and the deadline
timer never fires (it was cleared); when the deadline fires strictly
first, the wrapper rejects with `Operation timed out` whatever the
operation's own eventual settlement was. -/
theorem fetchWithTimeout_spec {α : Type} (op : AsyncOp α) (timeout : Nat) :
    (op.settleTime < timeout →
      (fetchWithTimeout op timeout).1.result = op.result ∧
      (fetchWithTimeout op timeout).2 = false) ∧
    (timeout < op.settleTime →
      (fetchWithTimeout op timeout).1.result =
        Except.error "Operation timed out" ∧
      (fetchWithTimeout op timeout).1.settleTime = timeout) := by
  constructor
  · intro h
    rw [fetchWithTimeout, if_pos h]
    exact ⟨rfl, rfl⟩
  · intro h
    have hn : ¬ op.settleTime < timeout := by omega
    rw [fetchWithTimeout, if_neg hn]
    exact ⟨rfl, rfl⟩

/-- Witness for C2: an operation settling at 50 beats a 100 ms deadline
and keeps its failure; an operation settling at 200 loses to it even
though it would have succeeded. -/
theorem fetchWithTimeout_spec_witness :
    ((50 : Nat) < 100 ∧
      (fetchWithTimeout ⟨50, Except.error "boom"⟩ 100).1.result =
        (Except.error "boom" : Except String Nat)) ∧
    ((100 : Nat) < 200 ∧
      (fetchWithTimeout ⟨200, Except.ok 7⟩ 100).1.result =
        (Except.error "Operation timed out" : Except String Nat)) :=
  ⟨⟨by decide,
    ((fetchWithTimeout_spec ⟨50, Except.error "boom"⟩ 100).1 (by decide)).1⟩,
   ⟨by decide,
    ((fetchWithTimeout_spec ⟨200, Except.ok 7⟩ 100).2 (by decide)).1⟩⟩

/-- C8: whichever operation settles strictly first determines the race's
outcome — including a faster failure beating a slower success — and the
later settlement is discarded. -/
theorem raceConditionTest_spec (op1 op2 : AsyncOp String) :
    (op1.settleTime < op2.settleTime → raceConditionTest op1 op2 = op1) ∧
    (op2.settleTime < op1.settleTime → raceConditionTest op1 op2 = op2) := by
  constructor
  · intro h
    have hn : ¬ op2.settleTime < op1.settleTime := by omega
    rw [raceConditionTest, if_neg hn]
  · intro h
    rw [raceConditionTest, if_pos h]

/-- Witness for C8: a failure settling at 50 wins over a success
settling at 100, and the discarded success never surfaces. -/
theorem raceConditionTest_spec_witness :
    (50 : Nat) < 100 ∧
    raceConditionTest ⟨100, Except.ok "slow success"⟩
        ⟨50, Except.error "fast failure"⟩ =
      ⟨50, Except.error "fast failure"⟩ :=
  ⟨by decide,
   (raceConditionTest_spec ⟨100, Except.ok "slow success"⟩
     ⟨50, Except.error "fast failure"⟩).2 (by decide)⟩

/-- C7: the continuation never receives both an error and a record, and
`promisifyCallback` resolves with exactly the record the callback
supplied and rejects with exactly the error the callback supplied. -/
theorem callbackBridge_spec (userId : Int) :
    ((fetchUserCallback userId).1 = none ∨
      (fetchUserCallback userId).2 = none) ∧
    (∀ e, (fetchUserCallback userId).1 = some e →
      promisifyCallback userId = Except.error e) ∧
    (∀ u, fetchUserCallback userId = (none, some u) →
      promisifyCallback userId = Except.ok u) := by
  by_cases h1 : userId = 1
  · subst h1
    refine ⟨Or.inl rfl, ?_, ?_⟩
    · intro e he
      simp [fetchUserCallback] at he
    · intro u hu
      have hrec : fetchUserCallback 1 =
          (none,
           some { id := 1, name := "John Doe", email := "john@example.com" }) :=
        rfl
      rw [hrec] at hu
      injection hu with hu1 hu2
      injection hu2 with hu3
      rw [← hu3]
      rfl
  · by_cases h2 : userId = 2
    · subst h2
      refine ⟨Or.inl (by simp [fetchUserCallback]), ?_, ?_⟩
      · intro e he
        simp [fetchUserCallback] at he
      · intro u hu
        have hrec : fetchUserCallback 2 =
            (none,
             some { id := 2, name := "Jane Smith",
                    email := "jane@example.com" }) := by
          simp [fetchUserCallback]
        rw [hrec] at hu
        injection hu with hu1 hu2
        injection hu2 with hu3
        rw [← hu3]
        simp [promisifyCallback, hrec]
    · have hrec : fetchUserCallback userId = (some "User not found", none) := by
        simp [fetchUserCallback, h1, h2]
      refine ⟨Or.inr (by rw [hrec]), ?_, ?_⟩
      · intro e he
        rw [hrec] at he
        simp only [] at he
        injection he with he2
        rw [← he2]
        simp [promisifyCallback, hrec]
      · intro u hu
        rw [hrec] at hu
        injection hu with hu1 hu2
        exact Option.noConfusion hu2

/-- If every attempt from `attempt` through `maxRetries` fails, the loop
runs its remaining iterations and throws the wrapped message built from
the bound and the final attempt's failure. -/
lemma retryGo_allFail {α : Type} (op : Nat → Except String α)
    (maxRetries : Int) (f : Nat → String) :
    ∀ (remaining attempt : Nat) (last : Option String),
      (attempt : Int) + remaining = maxRetries + 1 →
      1 ≤ remaining →
      (∀ i : Nat, attempt ≤ i → (i : Int) ≤ maxRetries →
        op i = Except.error (f i)) →
      retryGo op maxRetries attempt remaining last =
        (Except.error (JsError.err
          ("최대 재시도 횟수 초과 (" ++ toString maxRetries ++ "회): " ++
            f maxRetries.toNat)),
         remaining) := by
  intro remaining
  induction remaining with
  | zero =>
    intro attempt last hinv h1 hop
    exact absurd h1 (by omega)
  | succ r ih =>
    intro attempt last hinv h1 hop
    have hattle : (attempt : Int) ≤ maxRetries := by omega
    have hopa : op attempt = Except.error (f attempt) := hop attempt le_rfl hattle
    simp only [retryGo, hopa]
    by_cases hEq : (attempt : Int) = maxRetries
    · have hr : r = 0 := by omega
      subst hr
      have ha : attempt = maxRetries.toNat := by omega
      rw [if_pos hEq, ha]
    · rw [if_neg hEq]
      rw [ih (attempt + 1) (some (f attempt)) (by omega) (by omega)
        (fun i hi hle => hop i (by omega) hle)]

/-- If the attempts before `attempt + j` all fail and attempt
`attempt + j` succeeds within the remaining budget, the loop returns
that success after exactly `j + 1` invocations. -/
lemma retryGo_success {α : Type} (op : Nat → Except String α)
    (maxRetries : Int) (v : α) :
    ∀ (j attempt remaining : Nat) (last : Option String),
      j < remaining →
      (attempt : Int) + remaining = maxRetries + 1 →
      op (attempt + j) = Except.ok v →
      (∀ i : Nat, attempt ≤ i → i < attempt + j →
        ∃ e, op i = Except.error e) →
      retryGo op maxRetries attempt remaining last = (Except.ok v, j + 1) := by
  intro j
  induction j with
  | zero =>
    intro attempt remaining last hj hinv hok hfail
    obtain ⟨r, rfl⟩ : ∃ r, remaining = r + 1 := ⟨remaining - 1, by omega⟩
    have hok2 : op attempt = Except.ok v := by simpa using hok
    simp [retryGo, hok2]
  | succ j ih =>
    intro attempt remaining last hj hinv hok hfail
    obtain ⟨r, rfl⟩ : ∃ r, remaining = r + 1 := ⟨remaining - 1, by omega⟩
    obtain ⟨e, he⟩ := hfail attempt le_rfl (by omega)
    have hne : ¬ (attempt : Int) = maxRetries := by omega
    simp only [retryGo, he, if_neg hne]
    rw [ih (attempt + 1) r (some e) (by omega) (by omega)
      (by rw [show attempt + 1 + j = attempt + (j + 1) by omega]; exact hok)
      (fun i hi1 hi2 => hfail i (by omega) (by omega))]

/-- C1: with a maximum attempt count `N ≥ 1`, the wrapper returns the
first successful attempt's value immediately — after exactly as many
invocations as attempts made — and, when every attempt fails, it makes
exactly `N` invocations and throws an error whose message carries `N`
and the last failure's message. -/
theorem fetchWithRetry_spec {α : Type} (op : Nat → Except String α)
    (N : Int) (hN : 1 ≤ N) :
    (∀ (k : Nat) (v : α), 1 ≤ k → (k : Int) ≤ N → op k = Except.ok v →
      (∀ i : Nat, 1 ≤ i → i < k → ∃ e, op i = Except.error e) →
      fetchWithRetry op N = (Except.ok v, k)) ∧
    (∀ f : Nat → String,
      (∀ i : Nat, 1 ≤ i → (i : Int) ≤ N → op i = Except.error (f i)) →
      fetchWithRetry op N =
        (Except.error (JsError.err
          ("최대 재시도 횟수 초과 (" ++ toString N ++ "회): " ++ f N.toNat)),
         N.toNat)) := by
  constructor
  · intro k v hk1 hkN hok hfail
    have h := retryGo_success op N v (k - 1) 1 N.toNat none (by omega)
      (by omega) (by rw [show 1 + (k - 1) = k by omega]; exact hok)
      (fun i hi1 hi2 => hfail i hi1 (by omega))
    have hk : k - 1 + 1 = k := by omega
    rw [fetchWithRetry, h, hk]
  · intro f hf
    have h := retryGo_allFail op N f N.toNat 1 none (by omega) (by omega)
      (fun i hi1 hi2 => hf i hi1 hi2)
    rw [fetchWithRetry, h]

/-- Witness for C1: an operation succeeding on its second of three
allowed attempts is invoked exactly twice; one that always fails with
budget 2 is invoked exactly twice and rejects with the wrapped
message. -/
theorem fetchWithRetry_spec_witness :
    (1 : Int) ≤ 3 ∧
    fetchWithRetry
        (fun k => if k = 2 then Except.ok 42 else Except.error "fail") 3 =
      (Except.ok 42, 2) ∧
    fetchWithRetry (fun _ => (Except.error "boom" : Except String Nat)) 2 =
      (Except.error (JsError.err "최대 재시도 횟수 초과 (2회): boom"), 2) := by
  refine ⟨by decide, ?_, ?_⟩
  · exact (fetchWithRetry_spec
      (fun k => if k = 2 then Except.ok 42 else Except.error "fail") 3
      (by decide)).1 2 42 (by decide) (by decide) rfl
      (fun i hi1 hi2 => ⟨"fail", by
        have hi : i = 1 := by omega
        subst hi
        rfl⟩)
  · have h := (fetchWithRetry_spec
      (fun _ => (Except.error "boom" : Except String Nat)) 2 (by decide)).2
      (fun _ => "boom") (fun i hi1 hi2 => rfl)
    rw [h]
    rfl

/-- C9: with a non-positive maximum attempt count the loop body never
runs, the operation is never invoked, and the trailing
`throw lastError!` throws the still-`undefined` variable rather than a
retries-exhausted error. -/
theorem fetchWithRetry_nonpositive {α : Type} (op : Nat → Except String α)
    (maxRetries : Int) (h : maxRetries ≤ 0) :
    fetchWithRetry op maxRetries = (Except.error JsError.undef, 0) := by
  have h0 : maxRetries.toNat = 0 := Int.toNat_of_nonpos h
  rw [fetchWithRetry, h0]
  rfl

/-- Witness for C9 at `maxRetries = -1`. -/
theorem fetchWithRetry_nonpositive_witness :
    (-1 : Int) ≤ 0 ∧
    fetchWithRetry (fun _ => (Except.error "boom" : Except String Nat)) (-1) =
      (Except.error JsError.undef, 0) :=
  ⟨by decide,
   fetchWithRetry_nonpositive (fun _ => Except.error "boom") (-1) (by decide)⟩

/-- Witness for C7 at ids 1 (success path) and 999 (error path). -/
theorem callbackBridge_spec_witness :
    promisifyCallback 1 =
      Except.ok { id := 1, name := "John Doe", email := "john@example.com" } ∧
    promisifyCallback 999 = Except.error "User not found" :=
  ⟨(callbackBridge_spec 1).2.2
      { id := 1, name := "John Doe", email := "john@example.com" } rfl,
   (callbackBridge_spec 999).2.1 "User not found" rfl⟩

end AsyncOperations
